import Mathlib

/-!
Verification of `cmd/syncthing/generate/generate.go` (the `syncthing generate`
subcommand) via a shallow embedding into Lean.

The embedding translates the three functions of the source file —
`CLI.Run`, `Generate` and `updateGUIAuthentication` — into pure Lean
functions.  External collaborators that the source calls but whose code is
not part of the repository slice (certificate loading/generation,
configuration loading, default-config synthesis, the configuration actor's
modify/wait/save protocol, the password hashing primitive, tilde expansion,
directory creation, the base-directory lookup and standard input) are
abstracted into an `Env` record of result values and result functions, so
that every control-flow decision of the source is preserved while the
collaborators' internals stay opaque.

Side effects (log output, invoking the generation primitive, enqueueing a
mutation, waiting on the waiter, saving the configuration, reading stdin,
calling `Generate`) are recorded as an ordered trace of `Event` values that
each function returns alongside its `Except` result, so temporal and
absence-of-effect properties can be stated about runs.
-/

set_option autoImplicit false

namespace SyncthingGenerate

/-- Kinds of failure a load primitive (`tls.LoadX509KeyPair`, `config.Load`)
can report.  `notExist` corresponds to an `fs.IsNotExist` error; the other
constructors carry their message.  The Go code of `Generate` receives these
as an opaque `error` value and only ever distinguishes `nil` vs non-`nil`
(for the certificate) or `fs.IsNotExist` vs other (for the config). -/
inductive LoadError where
  | notExist
  | malformed (msg : String)
  | permission (msg : String)
  | otherErr (msg : String)
  deriving DecidableEq, Repr

/-- The message carried by a load error, used when the Go code wraps the
error with `%w`. -/
def LoadError.message : LoadError → String
  | .notExist => "file does not exist"
  | .malformed m => m
  | .permission m => m
  | .otherErr m => m

/-- Model of `fs.IsNotExist`: true exactly on the not-exist error. -/
def IsNotExist : LoadError → Bool
  | .notExist => true
  | _ => false

/-- Model of `tls.Certificate`: the chain of raw DER-encoded certificates
(`cert.Certificate` in Go), each a byte sequence. -/
structure TlsCert where
  certificate : List (List Nat)
  deriving DecidableEq, Repr

/-- Modelled from the spec: `protocol.DeviceID` (lib/protocol is not under
src/).  Per the spec it is "a derived fixed-length identifier computed
deterministically from the certificate's raw encoded bytes (a
collision-resistant hash truncated/encoded to a canonical textual form)";
we model it as a value determined by those bytes. -/
structure DeviceID where
  bytes : List Nat
  deriving DecidableEq, Repr

/-- Modelled from the spec: `protocol.NewDeviceID` (lib/protocol is not
under src/).  The spec requires only that the identifier is "a pure
function of the certificate bytes"; we model the deterministic derivation
as the injection of the bytes into `DeviceID`. -/
def NewDeviceID (bs : List Nat) : DeviceID := ⟨bs⟩

/-- Model of `config.GUIConfiguration` restricted to the two fields that
`updateGUIAuthentication` reads or writes: `User` and `Password`.  The Go
struct has further fields, none of which the source file touches, so record
equality here expresses "the GUI sub-record is unchanged". -/
structure GUIConfiguration where
  user : String
  password : String
  deriving DecidableEq, Repr

/-- Model of `config.Configuration` restricted to the field the source file
touches: the GUI sub-record. -/
structure Configuration where
  gui : GUIConfiguration
  deriving DecidableEq, Repr

/-- The observable side effects of a run, in order of occurrence. -/
inductive Event where
  /-- Warning log `log.Println("WARNING: Key exists; will not overwrite.")`. -/
  | warnedKeyExists
  /-- Invocation of `syncthing.GenerateCertificate`. -/
  | generatedCert
  /-- Log output `log.Println("Device ID:", myID)`. -/
  | loggedDeviceID (id : DeviceID)
  /-- Invocation of `syncthing.DefaultConfig` with this identifier and the
  two boolean switches. -/
  | createdDefaultConfig (id : DeviceID) (noDefaultFolder skipPortProbing : Bool)
  /-- Start of the configuration actor via `go cfg.Serve(ctx)`. -/
  | startedServe
  /-- Enqueueing of the mutation via `cfg.Modify`. -/
  | modifyEnqueued
  /-- Log output `log.Println("Updated GUI authentication user name:", guiUser)`. -/
  | loggedUserChange (user : String)
  /-- Log output `log.Println("Updated GUI authentication password.")`. -/
  | loggedPasswordChange
  /-- The actor finished applying the enqueued mutation to the in-memory
  configuration. -/
  | mutationApplied
  /-- Return of `waiter.Wait()`. -/
  | waited
  /-- Invocation of `cfg.Save()`. -/
  | saved
  /-- One line was read from standard input. -/
  | readStdin
  /-- Invocation of `Generate` with this resolved GUI password. -/
  | calledGenerate (password : String)
  deriving DecidableEq, BEq, Repr

/-- Results of the external collaborators for one invocation.  Each field
models the outcome of the corresponding primitive called by the source. -/
structure Env where
  /-- Result of `fs.ExpandTilde confDir`. -/
  expandTilde : String → Except String String
  /-- Result of `syncthing.EnsureDir dir 0700`. -/
  ensureDir : String → Except String Unit
  /-- Result of `tls.LoadX509KeyPair certFile keyFile`. -/
  certLoad : Except LoadError TlsCert
  /-- Result of `syncthing.GenerateCertificate certFile keyFile`. -/
  generateCert : Except String TlsCert
  /-- Result of `config.Load cfgFile myID events.NoopLogger`. -/
  configLoad : Except LoadError Configuration
  /-- Result of `syncthing.DefaultConfig cfgFile myID events.NoopLogger
  noDefaultFolder skipPortProbing`. -/
  defaultConfig : DeviceID → Bool → Bool → Except String Configuration
  /-- The error result of `cfg.Modify` (the waiter handle is modelled by
  the `waited` event). -/
  modifyResult : Except String Unit
  /-- Result of `cfg.Save()`. -/
  cfgSave : Except String Unit
  /-- Modelled from the spec: the bcrypt hashing primitive inside
  `GUIConfiguration.HashAndSetPassword` (lib/config is not under src/).
  Per the spec it computes a one-way hash of the password and "fails with a
  HashingError if the hashing primitive fails (e.g., resource
  exhaustion)". -/
  hashFn : String → Except String String
  /-- Result of `locations.GetBaseDir locations.ConfigBaseDir`. -/
  configBaseDir : String

/-- Modelled from the spec: `GUIConfiguration.HashAndSetPassword`
(lib/config is not under src/).  Per the spec §4.5 it computes a one-way
hash of the new password and replaces the stored hash, propagating a
hashing failure. -/
def HashAndSetPassword (hashFn : String → Except String String)
    (guiCfg : GUIConfiguration) (password : String) :
    Except String GUIConfiguration :=
  match hashFn password with
  | .error e => .error e
  | .ok h => .ok { guiCfg with password := h }

/-- The first `if` block of `updateGUIAuthentication`: update the username
when a new one is supplied and differs, logging the change. -/
def updateGUIStep1 (guiCfg : GUIConfiguration) (guiUser : String) :
    GUIConfiguration × List Event :=
  if guiUser ≠ "" ∧ guiCfg.user ≠ guiUser then
    ({ guiCfg with user := guiUser }, [Event.loggedUserChange guiUser])
  else
    (guiCfg, [])

/-- Embedding of `updateGUIAuthentication(guiCfg, guiUser, guiPassword)`.
The Go function mutates `guiCfg` in place and logs; here it returns the
error result, the updated record and the log-event trace.  The second `if`
reads `guiCfg.Password` after the possible username update, hence the
`updateGUIStep1` projection in the condition. -/
def updateGUIAuthentication (hashFn : String → Except String String)
    (guiCfg : GUIConfiguration) (guiUser guiPassword : String) :
    Except String Unit × GUIConfiguration × List Event :=
  if guiPassword ≠ "" ∧ (updateGUIStep1 guiCfg guiUser).1.password ≠ guiPassword then
    match HashAndSetPassword hashFn (updateGUIStep1 guiCfg guiUser).1 guiPassword with
    | .error e =>
        (.error ("failed to set GUI authentication password: " ++ e),
         (updateGUIStep1 guiCfg guiUser).1, (updateGUIStep1 guiCfg guiUser).2)
    | .ok cfg2 =>
        (.ok (), cfg2, (updateGUIStep1 guiCfg guiUser).2 ++ [Event.loggedPasswordChange])
  else
    (.ok (), updateGUIStep1 guiCfg guiUser)

/-- The identity-provisioning block of `Generate`: load the keypair, warn
if it exists, otherwise invoke the generation primitive, wrapping its
failure as `create certificate`.  Go only tests the load error against
`nil`, so every load failure takes the generation branch. -/
def certStage (env : Env) : Except String TlsCert × List Event :=
  match env.certLoad with
  | .ok cert => (.ok cert, [Event.warnedKeyExists])
  | .error _ =>
    match env.generateCert with
    | .ok cert => (.ok cert, [Event.generatedCert])
    | .error e => (.error ("create certificate: " ++ e), [Event.generatedCert])

/-- The configuration-bootstrap block of `Generate`: load the config file;
on a not-exist error synthesize the default configuration for the derived
identifier and the two switches; surface any other load failure wrapped as
`load config`. -/
def configStage (env : Env) (myID : DeviceID) (noDefaultFolder skipPortProbing : Bool) :
    Except String Configuration × List Event :=
  match env.configLoad with
  | .ok cfg => (.ok cfg, [])
  | .error le =>
    if IsNotExist le then
      match env.defaultConfig myID noDefaultFolder skipPortProbing with
      | .ok cfg =>
          (.ok cfg, [Event.createdDefaultConfig myID noDefaultFolder skipPortProbing])
      | .error e =>
          (.error ("create config: " ++ e),
           [Event.createdDefaultConfig myID noDefaultFolder skipPortProbing])
    else
      (.error ("load config: " ++ le.message), [])

/-- The trace of the actor up to and including the return of
`waiter.Wait()`: the actor is started, the mutation is enqueued, the
mutation closure runs on the actor thread (producing `logs`), the mutation
is applied, and the wait returns. -/
def actorTrace (logs : List Event) : List Event :=
  Event.startedServe :: Event.modifyEnqueued ::
    (logs ++ [Event.mutationApplied, Event.waited])

/-- The actor block of `Generate`: start serving, enqueue the GUI mutation
via `cfg.Modify`, wait on the waiter, return the mutation's error if any,
then explicitly `cfg.Save`, wrapping its failure as `save config`. -/
def actorStage (env : Env) (cfg : Configuration) (guiUser guiPassword : String) :
    Except String Unit × List Event :=
  match env.modifyResult with
  | .error e => (.error ("modify config: " ++ e), [Event.startedServe])
  | .ok _ =>
    match (updateGUIAuthentication env.hashFn cfg.gui guiUser guiPassword).1 with
    | .error e =>
        (.error e,
         actorTrace (updateGUIAuthentication env.hashFn cfg.gui guiUser guiPassword).2.2)
    | .ok _ =>
      match env.cfgSave with
      | .ok _ =>
          (.ok (),
           actorTrace (updateGUIAuthentication env.hashFn cfg.gui guiUser guiPassword).2.2
             ++ [Event.saved])
      | .error e =>
          (.error ("save config: " ++ e),
           actorTrace (updateGUIAuthentication env.hashFn cfg.gui guiUser guiPassword).2.2
             ++ [Event.saved])

/-- The node identifier derived in `Generate`:
`protocol.NewDeviceID(cert.Certificate[0])`. -/
def deviceIDOf (cert : TlsCert) : DeviceID :=
  NewDeviceID (cert.certificate.headD [])

/-- Embedding of `Generate(confDir, guiUser, guiPassword, noDefaultFolder,
skipPortProbing)`.  Returns the error result together with the ordered
trace of observable effects. -/
def Generate (env : Env) (confDir guiUser guiPassword : String)
    (noDefaultFolder skipPortProbing : Bool) :
    Except String Unit × List Event :=
  match env.expandTilde confDir with
  | .error e => (.error e, [])
  | .ok dir =>
    match env.ensureDir dir with
    | .error e => (.error e, [])
    | .ok _ =>
      match certStage env with
      | (.error e, t1) => (.error e, t1)
      | (.ok cert, t1) =>
        match configStage env (deviceIDOf cert) noDefaultFolder skipPortProbing with
        | (.error e, t2) =>
            (.error e, (t1 ++ [Event.loggedDeviceID (deviceIDOf cert)]) ++ t2)
        | (.ok cfg, t2) =>
            ((actorStage env cfg guiUser guiPassword).1,
             (t1 ++ [Event.loggedDeviceID (deviceIDOf cert)]) ++ t2 ++
               (actorStage env cfg guiUser guiPassword).2)

/-- The characters of one line: everything before the first newline. -/
def takeLine : List Char → List Char
  | [] => []
  | c :: cs => if c = Char.ofNat 10 then [] else c :: takeLine cs

/-- Modelled from the spec: reading one line from standard input via
`bufio.NewReader(os.Stdin).ReadLine()` (bufio/os are external).  Per the
spec §4.1 it "reads exactly one line from standard input and returns that
line as the value", failing on EOF/IO failure; `ReadLine` strips the
trailing newline.  `stdin` is the pending stdin content. -/
def readLine (stdin : String) : Except String String :=
  if stdin.data = [] then .error "EOF"
  else .ok ⟨takeLine stdin.data⟩

/-- Model of `cmdutil.CommonOptions`, restricted to the fields `CLI.Run`
reads. -/
structure CommonOptions where
  confDir : String
  homeDir : String
  hideConsole : Bool
  noDefaultFolder : Bool
  skipPortProbing : Bool
  deriving DecidableEq, Repr

/-- Model of the `CLI` option struct. -/
structure CLI extends CommonOptions where
  guiUser : String
  guiPassword : String
  deriving DecidableEq, Repr

/-- The error wrapping `CLI.Run` applies to a `Generate` failure. -/
def wrapGenErr : Except String Unit → Except String Unit
  | .error e => .error ("failed to generate config and keys: " ++ e)
  | .ok _ => .ok ()

/-- The configuration-directory resolution of `CLI.Run` after the
conflicting-arguments guard: `--home` overrides `ConfDir`; an empty
`ConfDir` falls back to the platform default base directory. -/
def resolveConfDir (env : Env) (c : CLI) : String :=
  if c.homeDir ≠ "" then c.homeDir
  else if c.confDir = "" then env.configBaseDir
  else c.confDir

/-- Embedding of `CLI.Run`.  `log.SetFlags(0)` and `osutil.HideConsole()`
are log/console configuration with no modelled effect.  The run fails
immediately when `--home` and `--config` are both supplied; otherwise the
configuration directory is resolved, the GUI password is read from stdin
when it equals the sentinel `-`, and `Generate` is invoked, its failure
wrapped. -/
def CLI.Run (env : Env) (stdin : String) (c : CLI) :
    Except String Unit × List Event :=
  if c.homeDir ≠ "" ∧ c.confDir ≠ "" then
    (.error "--home must not be used together with --config", [])
  else
    if c.guiPassword = "-" then
      match readLine stdin with
      | .error e =>
          (.error ("failed reading GUI password: " ++ e), [Event.readStdin])
      | .ok password =>
          (wrapGenErr (Generate env (resolveConfDir env c) c.guiUser password
              c.noDefaultFolder c.skipPortProbing).1,
           Event.readStdin :: Event.calledGenerate password ::
             (Generate env (resolveConfDir env c) c.guiUser password
               c.noDefaultFolder c.skipPortProbing).2)
    else
      (wrapGenErr (Generate env (resolveConfDir env c) c.guiUser c.guiPassword
          c.noDefaultFolder c.skipPortProbing).1,
       Event.calledGenerate c.guiPassword ::
         (Generate env (resolveConfDir env c) c.guiUser c.guiPassword
           c.noDefaultFolder c.skipPortProbing).2)

/-! ### Concrete environments and inputs used by witnesses and counterexamples -/

/-- A fully successful environment: the certificate pair loads, the config
file is absent so the default is synthesized, and every later primitive
succeeds. -/
def envOk : Env where
  expandTilde := fun s => .ok s
  ensureDir := fun _ => .ok ()
  certLoad := .ok ⟨[[1, 2, 3]]⟩
  generateCert := .ok ⟨[[9, 9]]⟩
  configLoad := .error .notExist
  defaultConfig := fun _ _ _ => .ok ⟨⟨"admin", "oldhash"⟩⟩
  modifyResult := .ok ()
  cfgSave := .ok ()
  hashFn := fun s => .ok ("bcrypt$" ++ s)
  configBaseDir := "/home/user/.config/syncthing"

/-- Like `envOk` but the certificate load fails with malformed data (not a
not-exist error). -/
def envMalformedCert : Env :=
  { envOk with certLoad := .error (.malformed "tls: failed to find any PEM data") }

/-- Like `envMalformedCert` but certificate generation also fails. -/
def envCertGenFail : Env :=
  { envMalformedCert with generateCert := .error "disk full" }

/-- Like `envOk` but the hashing primitive fails. -/
def envHashFail : Env :=
  { envOk with hashFn := fun _ => .error "out of memory" }

/-- Like `envOk` but the config load fails with a permission error. -/
def envPermCfg : Env :=
  { envOk with configLoad := .error (.permission "permission denied") }

/-- CLI options with the stdin sentinel as GUI password. -/
def cliDash : CLI :=
  { confDir := "", homeDir := "", hideConsole := false, noDefaultFolder := false,
    skipPortProbing := false, guiUser := "", guiPassword := "-" }

/-- CLI options supplying both `--home` and `--config`. -/
def cliConflict : CLI :=
  { confDir := "/cfg", homeDir := "/home/u", hideConsole := false,
    noDefaultFolder := false, skipPortProbing := false, guiUser := "",
    guiPassword := "-" }

/-! ### Helper lemmas on the stages' traces -/

theorem updateGUIStep1_password (g : GUIConfiguration) (u : String) :
    (updateGUIStep1 g u).1.password = g.password := by
  unfold updateGUIStep1
  split <;> rfl

theorem mem_updateGUIStep1 {g : GUIConfiguration} {u : String} {ev : Event}
    (h : ev ∈ (updateGUIStep1 g u).2) : ev = Event.loggedUserChange u := by
  unfold updateGUIStep1 at h
  split at h <;> simp_all

theorem mem_updateGUIAuthentication_logs {hashFn : String → Except String String}
    {g : GUIConfiguration} {u p : String} {ev : Event}
    (h : ev ∈ (updateGUIAuthentication hashFn g u p).2.2) :
    ev = Event.loggedUserChange u ∨ ev = Event.loggedPasswordChange := by
  unfold updateGUIAuthentication at h
  split at h
  · split at h
    · exact Or.inl (mem_updateGUIStep1 h)
    · rcases List.mem_append.mp h with h | h
      · exact Or.inl (mem_updateGUIStep1 h)
      · exact Or.inr (List.mem_singleton.mp h)
  · exact Or.inl (mem_updateGUIStep1 h)

theorem mem_certStage_events {env : Env} {ev : Event}
    (h : ev ∈ (certStage env).2) :
    ev = Event.warnedKeyExists ∨ ev = Event.generatedCert := by
  unfold certStage at h
  split at h
  · exact Or.inl (List.mem_singleton.mp h)
  · split at h <;> exact Or.inr (List.mem_singleton.mp h)

theorem certStage_of_load_ok {env : Env} {cert : TlsCert}
    (h : env.certLoad = .ok cert) :
    certStage env = (.ok cert, [Event.warnedKeyExists]) := by
  unfold certStage
  rw [h]

theorem mem_configStage_events {env : Env} {myID : DeviceID} {ndf spp : Bool} {ev : Event}
    (h : ev ∈ (configStage env myID ndf spp).2) :
    ev = Event.createdDefaultConfig myID ndf spp := by
  unfold configStage at h
  split at h
  · exact absurd h (List.not_mem_nil ev)
  · split at h
    · split at h <;> exact List.mem_singleton.mp h
    · exact absurd h (List.not_mem_nil ev)

theorem mem_actorTrace {logs : List Event} {ev : Event} (h : ev ∈ actorTrace logs) :
    ev = Event.startedServe ∨ ev = Event.modifyEnqueued ∨ ev ∈ logs ∨
    ev = Event.mutationApplied ∨ ev = Event.waited := by
  unfold actorTrace at h
  simp only [List.mem_cons, List.mem_append, List.mem_singleton] at h
  tauto

theorem saved_notin_actorTrace {hashFn : String → Except String String}
    {g : GUIConfiguration} {u p : String} :
    Event.saved ∉ actorTrace (updateGUIAuthentication hashFn g u p).2.2 := by
  intro h
  rcases mem_actorTrace h with h | h | h | h | h
  · exact Event.noConfusion h
  · exact Event.noConfusion h
  · rcases mem_updateGUIAuthentication_logs h with h | h <;> exact Event.noConfusion h
  · exact Event.noConfusion h
  · exact Event.noConfusion h

theorem waited_mem_actorTrace (logs : List Event) :
    Event.waited ∈ actorTrace logs := by
  unfold actorTrace
  simp

theorem mem_actorStage_events {env : Env} {cfg : Configuration} {u p : String} {ev : Event}
    (h : ev ∈ (actorStage env cfg u p).2) :
    ev = Event.startedServe ∨ ev = Event.modifyEnqueued ∨
    ev = Event.loggedUserChange u ∨ ev = Event.loggedPasswordChange ∨
    ev = Event.mutationApplied ∨ ev = Event.waited ∨ ev = Event.saved := by
  unfold actorStage at h
  split at h
  · exact Or.inl (List.mem_singleton.mp h)
  · have classify : ∀ x ∈ actorTrace (updateGUIAuthentication env.hashFn cfg.gui u p).2.2,
        x = Event.startedServe ∨ x = Event.modifyEnqueued ∨
        x = Event.loggedUserChange u ∨ x = Event.loggedPasswordChange ∨
        x = Event.mutationApplied ∨ x = Event.waited ∨ x = Event.saved := by
      intro x hx
      rcases mem_actorTrace hx with hx | hx | hx | hx | hx
      · exact Or.inl hx
      · exact Or.inr (Or.inl hx)
      · rcases mem_updateGUIAuthentication_logs hx with hx | hx
        · exact Or.inr (Or.inr (Or.inl hx))
        · exact Or.inr (Or.inr (Or.inr (Or.inl hx)))
      · exact Or.inr (Or.inr (Or.inr (Or.inr (Or.inl hx))))
      · exact Or.inr (Or.inr (Or.inr (Or.inr (Or.inr (Or.inl hx)))))
    split at h
    · exact classify ev h
    · split at h <;>
      · rcases List.mem_append.mp h with h | h
        · exact classify ev h
        · exact Or.inr (Or.inr (Or.inr (Or.inr (Or.inr (Or.inr (List.mem_singleton.mp h))))))

theorem actorStage_saved_shape (env : Env) (cfg : Configuration) (u p : String) :
    Event.saved ∉ (actorStage env cfg u p).2 ∨
    ∃ T, (actorStage env cfg u p).2 = T ++ [Event.saved] ∧
      Event.saved ∉ T ∧ Event.waited ∈ T := by
  unfold actorStage
  split
  · left
    intro h
    exact Event.noConfusion (List.mem_singleton.mp h)
  · split
    · left
      exact saved_notin_actorTrace
    · split <;>
      · right
        exact ⟨_, rfl, saved_notin_actorTrace, waited_mem_actorTrace _⟩

/-! ### Claims C5, C7, C10: `updateGUIAuthentication` -/

/-- C5: for every GUI sub-record and every supplied non-empty new password
that differs from what is already configured, `updateGUIAuthentication`
computes the one-way hash of the new password (the hashing primitive's
output), replaces the stored hash with it, and reports the change. -/
theorem c5_password_update (hashFn : String → Except String String)
    (g : GUIConfiguration) (u p h : String)
    (hp : p ≠ "") (hdiff : g.password ≠ p) (hhash : hashFn p = .ok h) :
    (updateGUIAuthentication hashFn g u p).1 = .ok () ∧
    (updateGUIAuthentication hashFn g u p).2.1.password = h ∧
    Event.loggedPasswordChange ∈ (updateGUIAuthentication hashFn g u p).2.2 := by
  unfold updateGUIAuthentication
  rw [if_pos ⟨hp, by rw [updateGUIStep1_password]; exact hdiff⟩]
  unfold HashAndSetPassword
  rw [hhash]
  exact ⟨rfl, rfl, by simp⟩

theorem c5_password_update_witness :
    (updateGUIAuthentication envOk.hashFn ⟨"admin", "oldhash"⟩ "" "abc123").1 = .ok () ∧
    (updateGUIAuthentication envOk.hashFn ⟨"admin", "oldhash"⟩ "" "abc123").2.1.password
      = "bcrypt$abc123" ∧
    Event.loggedPasswordChange ∈
      (updateGUIAuthentication envOk.hashFn ⟨"admin", "oldhash"⟩ "" "abc123").2.2 :=
  c5_password_update envOk.hashFn ⟨"admin", "oldhash"⟩ "" "abc123" "bcrypt$abc123"
    (by decide) (by decide) rfl

/-- C7: calling `updateGUIAuthentication` with a username equal to the
current one (or empty) and an empty password leaves the GUI sub-record
unchanged, returns no error, and produces no log output. -/
theorem c7_noop (hashFn : String → Except String String)
    (g : GUIConfiguration) (u : String) (hu : u = "" ∨ u = g.user) :
    updateGUIAuthentication hashFn g u "" = (.ok (), g, []) := by
  have h1 : updateGUIStep1 g u = (g, []) := by
    unfold updateGUIStep1
    rw [if_neg]
    rcases hu with h | h <;> simp [h]
  unfold updateGUIAuthentication
  rw [if_neg (by simp), h1]

theorem c7_noop_witness :
    updateGUIAuthentication envOk.hashFn ⟨"admin", "oldhash"⟩ "admin" ""
      = (.ok (), ⟨"admin", "oldhash"⟩, []) :=
  c7_noop envOk.hashFn ⟨"admin", "oldhash"⟩ "admin" (Or.inr rfl)

/-- C10: if the supplied non-empty new password string is exactly equal to
the currently stored password-hash string, `updateGUIAuthentication`
performs no rehash and leaves the password field unchanged, because the
differs check compares the plaintext input directly against the stored
hash value. -/
theorem c10_password_equals_hash (hashFn : String → Except String String)
    (g : GUIConfiguration) (u p : String)
    (_hp : p ≠ "") (heq : p = g.password) :
    (updateGUIAuthentication hashFn g u p).1 = .ok () ∧
    (updateGUIAuthentication hashFn g u p).2.1.password = g.password ∧
    Event.loggedPasswordChange ∉ (updateGUIAuthentication hashFn g u p).2.2 := by
  unfold updateGUIAuthentication
  rw [if_neg (by rw [updateGUIStep1_password, ← heq]; simp)]
  exact ⟨rfl, updateGUIStep1_password g u,
    fun h => Event.noConfusion (mem_updateGUIStep1 h)⟩

theorem c10_password_equals_hash_witness :
    (updateGUIAuthentication envOk.hashFn ⟨"admin", "oldhash"⟩ "" "oldhash").1 = .ok () ∧
    (updateGUIAuthentication envOk.hashFn ⟨"admin", "oldhash"⟩ "" "oldhash").2.1.password
      = "oldhash" ∧
    Event.loggedPasswordChange ∉
      (updateGUIAuthentication envOk.hashFn ⟨"admin", "oldhash"⟩ "" "oldhash").2.2 :=
  c10_password_equals_hash envOk.hashFn ⟨"admin", "oldhash"⟩ "" "oldhash"
    (by decide) rfl

/-! ### Claim C2: an existing identity is never overwritten -/

/-- C2: whenever loading the certificate/keypair succeeds, `Generate`
emits the warning and the certificate-generation primitive — the only
writer of key material in this flow — is never invoked, so the existing
private key is never overwritten. -/
theorem c2_existing_identity_preserved
    (env : Env) (confDir u p : String) (ndf spp : Bool)
    (dir : String) (cert : TlsCert)
    (h1 : env.expandTilde confDir = .ok dir)
    (h2 : env.ensureDir dir = .ok ())
    (h3 : env.certLoad = .ok cert) :
    Event.warnedKeyExists ∈ (Generate env confDir u p ndf spp).2 ∧
    Event.generatedCert ∉ (Generate env confDir u p ndf spp).2 := by
  have hcs := certStage_of_load_ok h3
  rcases hc2 : configStage env (deviceIDOf cert) ndf spp with ⟨cr, t2⟩
  have ht2 : ∀ ev ∈ t2, ev = Event.createdDefaultConfig (deviceIDOf cert) ndf spp := by
    intro ev hev
    have hm : ev ∈ (configStage env (deviceIDOf cert) ndf spp).2 := by
      rw [hc2]
      exact hev
    exact mem_configStage_events hm
  rcases cr with e | cfg
  · unfold Generate
    simp only [h1, h2, hcs, hc2]
    refine ⟨by simp, ?_⟩
    intro hmem
    rcases List.mem_append.mp hmem with hmem | hmem
    · rcases List.mem_append.mp hmem with hmem | hmem
      · exact Event.noConfusion (List.mem_singleton.mp hmem)
      · exact Event.noConfusion (List.mem_singleton.mp hmem)
    · exact Event.noConfusion (ht2 _ hmem)
  · unfold Generate
    simp only [h1, h2, hcs, hc2]
    refine ⟨by simp, ?_⟩
    intro hmem
    rcases List.mem_append.mp hmem with hmem | hmem
    · rcases List.mem_append.mp hmem with hmem | hmem
      · rcases List.mem_append.mp hmem with hmem | hmem
        · exact Event.noConfusion (List.mem_singleton.mp hmem)
        · exact Event.noConfusion (List.mem_singleton.mp hmem)
      · exact Event.noConfusion (ht2 _ hmem)
    · rcases mem_actorStage_events hmem with h | h | h | h | h | h | h <;>
        exact Event.noConfusion h

theorem c2_existing_identity_preserved_witness :
    Event.warnedKeyExists ∈ (Generate envOk "/cfg" "" "" false false).2 ∧
    Event.generatedCert ∉ (Generate envOk "/cfg" "" "" false false).2 :=
  c2_existing_identity_preserved envOk "/cfg" "" "" false false "/cfg"
    ⟨[[1, 2, 3]]⟩ rfl rfl rfl

/-! ### Claim C3: a hashing error aborts before the save -/

/-- C3: when the GUI-credential mutation fails (the hashing error is
propagated by `updateGUIAuthentication`), `Generate` returns that error
and `cfg.Save` is never invoked, so the configuration is not persisted
with a partial change. -/
theorem c3_hash_error_aborts_save
    (env : Env) (confDir u p : String) (ndf spp : Bool)
    (dir : String) (cert : TlsCert) (t1 : List Event)
    (cfg : Configuration) (t2 : List Event) (e : String)
    (h1 : env.expandTilde confDir = .ok dir)
    (h2 : env.ensureDir dir = .ok ())
    (h3 : certStage env = (.ok cert, t1))
    (h4 : configStage env (deviceIDOf cert) ndf spp = (.ok cfg, t2))
    (h5 : env.modifyResult = .ok ())
    (h6 : (updateGUIAuthentication env.hashFn cfg.gui u p).1 = .error e) :
    (Generate env confDir u p ndf spp).1 = .error e ∧
    Event.saved ∉ (Generate env confDir u p ndf spp).2 := by
  have has : actorStage env cfg u p =
      (.error e, actorTrace (updateGUIAuthentication env.hashFn cfg.gui u p).2.2) := by
    unfold actorStage
    simp only [h5, h6]
  have ht1 : ∀ ev ∈ t1, ev = Event.warnedKeyExists ∨ ev = Event.generatedCert := by
    intro ev hev
    have hm : ev ∈ (certStage env).2 := by
      rw [h3]
      exact hev
    exact mem_certStage_events hm
  have ht2 : ∀ ev ∈ t2, ev = Event.createdDefaultConfig (deviceIDOf cert) ndf spp := by
    intro ev hev
    have hm : ev ∈ (configStage env (deviceIDOf cert) ndf spp).2 := by
      rw [h4]
      exact hev
    exact mem_configStage_events hm
  unfold Generate
  simp only [h1, h2, h3, h4, has]
  refine ⟨by trivial, ?_⟩
  intro hmem
  rcases List.mem_append.mp hmem with hmem | hmem
  · rcases List.mem_append.mp hmem with hmem | hmem
    · rcases List.mem_append.mp hmem with hmem | hmem
      · rcases ht1 _ hmem with h | h <;> exact Event.noConfusion h
      · exact Event.noConfusion (List.mem_singleton.mp hmem)
    · exact Event.noConfusion (ht2 _ hmem)
  · exact saved_notin_actorTrace hmem

theorem c3_hash_error_aborts_save_witness :
    (Generate envHashFail "/cfg" "" "newpass" false false).1
      = .error ("failed to set GUI authentication password: " ++ "out of memory") ∧
    Event.saved ∉ (Generate envHashFail "/cfg" "" "newpass" false false).2 :=
  c3_hash_error_aborts_save envHashFail "/cfg" "" "newpass" false false "/cfg"
    ⟨[[1, 2, 3]]⟩ [Event.warnedKeyExists] ⟨⟨"admin", "oldhash"⟩⟩
    [Event.createdDefaultConfig (deviceIDOf ⟨[[1, 2, 3]]⟩) false false]
    ("failed to set GUI authentication password: " ++ "out of memory")
    rfl rfl rfl rfl rfl rfl

/-! ### Claim C1: what happens on a non-not-exist certificate load failure -/

/-- C1 counterexample: with a malformed (not absent) certificate pair and
otherwise successful primitives, `Generate` succeeds and the
certificate-generation primitive IS invoked — the load failure is not
fatal, refuting the claim that a non-absence load failure returns an error
without invoking generation. -/
theorem c1_counterexample :
    (Generate envMalformedCert "/cfg" "" "" false false).1 = .ok () ∧
    Event.generatedCert ∈ (Generate envMalformedCert "/cfg" "" "" false false).2 := by
  constructor
  · rfl
  · exact List.mem_cons_self _ _

/-- C1 amended: a certificate/keypair load failure for any reason —
absence, malformed data or a permission error alike — falls through to
invoking the certificate-generation primitive; `Generate` returns an error
in that situation only if generation itself fails, wrapped as
`create certificate`. -/
theorem c1_load_failure_falls_through
    (env : Env) (confDir u p : String) (ndf spp : Bool)
    (dir : String) (le : LoadError)
    (h1 : env.expandTilde confDir = .ok dir)
    (h2 : env.ensureDir dir = .ok ())
    (h3 : env.certLoad = .error le) :
    Event.generatedCert ∈ (Generate env confDir u p ndf spp).2 ∧
    ∀ g, env.generateCert = .error g →
      Generate env confDir u p ndf spp =
        (.error ("create certificate: " ++ g), [Event.generatedCert]) := by
  rcases hg : env.generateCert with g | cert
  · have hcs : certStage env
        = (.error ("create certificate: " ++ g), [Event.generatedCert]) := by
      unfold certStage
      simp only [h3, hg]
    constructor
    · unfold Generate
      simp only [h1, h2, hcs]
      simp
    · intro g' hg'
      obtain rfl : g = g' := Except.error.inj hg'
      unfold Generate
      simp only [h1, h2, hcs]
  · have hcs : certStage env = (.ok cert, [Event.generatedCert]) := by
      unfold certStage
      simp only [h3, hg]
    constructor
    · rcases hc2 : configStage env (deviceIDOf cert) ndf spp with ⟨cr, t2⟩
      rcases cr with e | cfg <;>
        · unfold Generate
          simp only [h1, h2, hcs, hc2]
          simp
    · intro g hg'
      exact Except.noConfusion hg'

theorem c1_load_failure_falls_through_witness :
    Event.generatedCert ∈ (Generate envCertGenFail "/cfg" "" "" false false).2 ∧
    Generate envCertGenFail "/cfg" "" "" false false
      = (.error ("create certificate: " ++ "disk full"), [Event.generatedCert]) :=
  ⟨(c1_load_failure_falls_through envCertGenFail "/cfg" "" "" false false "/cfg"
      (LoadError.malformed "tls: failed to find any PEM data") rfl rfl rfl).1,
   (c1_load_failure_falls_through envCertGenFail "/cfg" "" "" false false "/cfg"
      (LoadError.malformed "tls: failed to find any PEM data") rfl rfl rfl).2
     "disk full" rfl⟩

/-! ### Claim C4: saving happens only after the wait, only explicitly -/

/-- C4: in every execution of `Generate`, either `cfg.Save` is never
invoked, or the trace ends with the single `Save` invocation and the
return of `waiter.Wait()` strictly precedes it: the mutation is applied and
waited on before persistence, and no event other than the one explicit
`Save` call persists anything. -/
theorem c4_save_only_after_wait (env : Env) (confDir u p : String) (ndf spp : Bool) :
    Event.saved ∉ (Generate env confDir u p ndf spp).2 ∨
    ∃ T, (Generate env confDir u p ndf spp).2 = T ++ [Event.saved] ∧
      Event.saved ∉ T ∧ Event.waited ∈ T := by
  rcases he : env.expandTilde confDir with e | dir
  · left
    unfold Generate
    simp only [he]
    exact List.not_mem_nil _
  · rcases hd : env.ensureDir dir with e | uu
    · left
      unfold Generate
      simp only [he, hd]
      exact List.not_mem_nil _
    · rcases hcs : certStage env with ⟨cr, t1⟩
      have ht1 : Event.saved ∉ t1 := by
        intro hmem
        have hm : Event.saved ∈ (certStage env).2 := by
          rw [hcs]
          exact hmem
        rcases mem_certStage_events hm with h | h <;> exact Event.noConfusion h
      rcases cr with e | cert
      · left
        unfold Generate
        simp only [he, hd, hcs]
        exact ht1
      · rcases hc2 : configStage env (deviceIDOf cert) ndf spp with ⟨cr2, t2⟩
        have ht2 : Event.saved ∉ t2 := by
          intro hmem
          have hm : Event.saved ∈ (configStage env (deviceIDOf cert) ndf spp).2 := by
            rw [hc2]
            exact hmem
          exact Event.noConfusion (mem_configStage_events hm)
        rcases cr2 with e | cfg
        · left
          unfold Generate
          simp only [he, hd, hcs, hc2]
          intro hmem
          rcases List.mem_append.mp hmem with hmem | hmem
          · rcases List.mem_append.mp hmem with hmem | hmem
            · exact ht1 hmem
            · exact Event.noConfusion (List.mem_singleton.mp hmem)
          · exact ht2 hmem
        · rcases actorStage_saved_shape env cfg u p with hA | ⟨T, hT, hsT, hwT⟩
          · left
            unfold Generate
            simp only [he, hd, hcs, hc2]
            intro hmem
            rcases List.mem_append.mp hmem with hmem | hmem
            · rcases List.mem_append.mp hmem with hmem | hmem
              · rcases List.mem_append.mp hmem with hmem | hmem
                · exact ht1 hmem
                · exact Event.noConfusion (List.mem_singleton.mp hmem)
              · exact ht2 hmem
            · exact hA hmem
          · right
            refine ⟨((t1 ++ [Event.loggedDeviceID (deviceIDOf cert)]) ++ t2) ++ T,
              ?_, ?_, ?_⟩
            · unfold Generate
              simp only [he, hd, hcs, hc2, hT, List.append_assoc]
            · intro hmem
              rcases List.mem_append.mp hmem with hmem | hmem
              · rcases List.mem_append.mp hmem with hmem | hmem
                · rcases List.mem_append.mp hmem with hmem | hmem
                  · exact ht1 hmem
                  · exact Event.noConfusion (List.mem_singleton.mp hmem)
                · exact ht2 hmem
              · exact hsT hmem
            · exact List.mem_append_right _ hwT

/-! ### Claim C6: configuration bootstrap -/

theorem IsNotExist_eq_false {le : LoadError} (h : le ≠ LoadError.notExist) :
    IsNotExist le = false := by
  cases le
  · exact absurd rfl h
  · rfl
  · rfl
  · rfl

/-- C6: in the configuration-bootstrap step of `Generate`, a not-exist
load failure leads to synthesizing the default configuration bound to the
derived node identifier with the two boolean switches (and a failure of
that synthesis is wrapped as `create config`), while any other load
failure makes `Generate` return the error wrapped with the `load config`
stage label instead of falling back to the default. -/
theorem c6_config_bootstrap
    (env : Env) (confDir u p : String) (ndf spp : Bool)
    (dir : String) (cert : TlsCert) (t1 : List Event)
    (h1 : env.expandTilde confDir = .ok dir)
    (h2 : env.ensureDir dir = .ok ())
    (h3 : certStage env = (.ok cert, t1)) :
    (env.configLoad = .error .notExist →
      Event.createdDefaultConfig (deviceIDOf cert) ndf spp
        ∈ (Generate env confDir u p ndf spp).2 ∧
      ∀ e, env.defaultConfig (deviceIDOf cert) ndf spp = .error e →
        (Generate env confDir u p ndf spp).1 = .error ("create config: " ++ e)) ∧
    (∀ le, env.configLoad = .error le → le ≠ .notExist →
      (Generate env confDir u p ndf spp).1
        = .error ("load config: " ++ le.message)) := by
  constructor
  · intro hcl
    rcases hdf : env.defaultConfig (deviceIDOf cert) ndf spp with e | cfg
    · have hc2 : configStage env (deviceIDOf cert) ndf spp
          = (.error ("create config: " ++ e),
             [Event.createdDefaultConfig (deviceIDOf cert) ndf spp]) := by
        unfold configStage
        simp only [hcl, hdf, IsNotExist, if_true]
      constructor
      · unfold Generate
        simp only [h1, h2, h3, hc2]
        simp
      · intro e' he'
        obtain rfl : e = e' := Except.error.inj he'
        unfold Generate
        simp only [h1, h2, h3, hc2]
    · have hc2 : configStage env (deviceIDOf cert) ndf spp
          = (.ok cfg, [Event.createdDefaultConfig (deviceIDOf cert) ndf spp]) := by
        unfold configStage
        simp only [hcl, hdf, IsNotExist, if_true]
      constructor
      · unfold Generate
        simp only [h1, h2, h3, hc2]
        simp
      · intro e' he'
        exact Except.noConfusion he'
  · intro le hcl hne
    have hc2 : configStage env (deviceIDOf cert) ndf spp
        = (.error ("load config: " ++ le.message), []) := by
      unfold configStage
      simp only [hcl, IsNotExist_eq_false hne, Bool.false_eq_true, if_false]
    unfold Generate
    simp only [h1, h2, h3, hc2]

theorem c6_config_bootstrap_witness :
    Event.createdDefaultConfig (deviceIDOf ⟨[[1, 2, 3]]⟩) false false
      ∈ (Generate envOk "/cfg" "" "" false false).2 ∧
    (Generate envPermCfg "/cfg" "" "" false false).1
      = .error ("load config: " ++ "permission denied") :=
  ⟨((c6_config_bootstrap envOk "/cfg" "" "" false false "/cfg"
      ⟨[[1, 2, 3]]⟩ [Event.warnedKeyExists] rfl rfl rfl).1 rfl).1,
   (c6_config_bootstrap envPermCfg "/cfg" "" "" false false "/cfg"
      ⟨[[1, 2, 3]]⟩ [Event.warnedKeyExists] rfl rfl rfl).2
     (LoadError.permission "permission denied") rfl (by decide)⟩

/-! ### Claims C8, C9: `CLI.Run` -/

/-- C8: `CLI.Run` passes the GUI password argument through unchanged to
`Generate` unless it equals the sentinel `-`, in which case exactly one
line is read from standard input and becomes the password with the
trailing newline stripped; if the stdin read fails, `Run` returns the
wrapped read error. -/
theorem c8_password_sentinel (env : Env) (stdin : String) (c : CLI)
    (hconf : ¬ (c.homeDir ≠ "" ∧ c.confDir ≠ "")) :
    (c.guiPassword ≠ "-" →
      Event.calledGenerate c.guiPassword ∈ (CLI.Run env stdin c).2) ∧
    (c.guiPassword = "-" →
      (∀ l, readLine stdin = .ok l →
        Event.calledGenerate l ∈ (CLI.Run env stdin c).2) ∧
      (∀ e, readLine stdin = .error e →
        (CLI.Run env stdin c).1 = .error ("failed reading GUI password: " ++ e))) := by
  unfold CLI.Run
  rw [if_neg hconf]
  constructor
  · intro hne
    rw [if_neg hne]
    simp
  · intro heq
    rw [if_pos heq]
    constructor
    · intro l hl
      simp only [hl]
      simp
    · intro e hl
      simp only [hl]

theorem c8_password_sentinel_witness :
    Event.calledGenerate "secretpass" ∈ (CLI.Run envOk "secretpass\n" cliDash).2 ∧
    (CLI.Run envOk "" cliDash).1 = .error ("failed reading GUI password: " ++ "EOF") :=
  ⟨((c8_password_sentinel envOk "secretpass\n" cliDash (by decide)).2 rfl).1
      "secretpass" rfl,
   ((c8_password_sentinel envOk "" cliDash (by decide)).2 rfl).2 "EOF" rfl⟩

/-- C9: when both the home-directory option and the configuration-directory
option are non-empty, `CLI.Run` fails with the mutually-exclusive-options
error and produces an empty trace: the password is not resolved (no stdin
read) and no identity or configuration work happens. -/
theorem c9_conflicting_options (env : Env) (stdin : String) (c : CLI)
    (h1 : c.homeDir ≠ "") (h2 : c.confDir ≠ "") :
    CLI.Run env stdin c
      = (.error "--home must not be used together with --config", []) := by
  unfold CLI.Run
  rw [if_pos ⟨h1, h2⟩]

theorem c9_conflicting_options_witness :
    CLI.Run envOk "secretpass\n" cliConflict
      = (.error "--home must not be used together with --config", []) :=
  c9_conflicting_options envOk "secretpass\n" cliConflict (by decide) (by decide)

end SyncthingGenerate
